import Mathlib

/-!
Verification of the `strong_alias` header library (FabienPean/strong_alias).

The library is a compile-time mechanism: `strong::alias<T, Name>` wraps a
representation type `T` with a nominal identity marker `Name`, and gates each
operator overload on whether the right-hand operand is not an alias, the same
alias, or a different alias.  We embed the type-level machinery shallowly:

* `Operand` describes the compile-time classification of an operand type
  (not an alias / an alias with a given identity marker), mirroring the base
  class structure `is_alias_t` / `alias_name<Name>` of `strong_alias.h`
  lines 42-53;
* `OperandVal` pairs such a classification with the underlying `T` value the
  operand carries (read through the implicit `operator T`);
* `Outcome` records the result of C++ overload resolution at a call site:
  a selected usable overload (`ok`), a selected *deleted* overload (hard
  compile error with a "deleted" diagnostic), or no viable overload at all
  (`absent`, a generic "no matching operator" compile error);
* the gating predicates `is_alias`, `is_same_alias`, `is_different_alias`
  transcribe the three concepts of `strong_alias.h` lines 48-53.

Value semantics of the wrapped representation are kept parametric: the
underlying operators of `T` appear as function parameters (`f : T → T → T`,
predicates `p : T → T → Bool`), matching the source, which delegates every
operator body to `T`'s own operator.
-/

namespace strong

/-- Compile-time classification of a candidate operand type, relative to the
alias machinery: either the type does not derive from `is_alias_t` (`plain`),
or it is an alias type deriving from `alias_name<n>` for exactly one identity
marker `n` (every type generated by the `STRONG_ALIAS` macro derives from
`alias_name` of its own name only). -/
inductive Operand (Name : Type) where
  | plain : Operand Name
  | aliasOf (n : Name) : Operand Name
deriving DecidableEq

variable {Name : Type} [DecidableEq Name] {T U : Type}

/-- Concept `is_alias` (strong_alias.h line 48-49):
`std::is_base_of_v<is_alias_t, rm_cvref_t<Arg>>`. -/
def is_alias : Operand Name → Bool
  | .plain => false
  | .aliasOf _ => true

/-- `std::is_base_of_v<alias_name<Name>, rm_cvref_t<Arg>>`: an alias type
derives from `alias_name<n>` exactly for its own identity marker. -/
def derives_alias_name (o : Operand Name) (n : Name) : Bool :=
  match o with
  | .plain => false
  | .aliasOf m => decide (m = n)

/-- Concept `is_same_alias` (strong_alias.h line 50-51). -/
def is_same_alias (o : Operand Name) (n : Name) : Bool :=
  is_alias o && derives_alias_name o n

/-- Concept `is_different_alias` (strong_alias.h line 52-53). -/
def is_different_alias (o : Operand Name) (n : Name) : Bool :=
  is_alias o && !derives_alias_name o n

/-- The composition-based alias body for scalar `T`
(`struct alias<T, Name> : alias_name<Name>` with a private `T value;`,
strong_alias.h lines 55-59).  The identity marker `n` is a phantom index. -/
structure Alias (T : Type) {Name : Type} (n : Name) where
  value : T
deriving DecidableEq

/-- The implicit conversion `operator T()` (strong_alias.h lines 70-72):
returns the owned value. -/
def Alias.toT (a : @Alias T Name n) : T := a.value

/-- The inheritance-based alias body for class `T`
(`struct alias<T, Name> : alias_name<Name>, T`, strong_alias.h line 125-127).
The inherited `T` sub-object is the `base` field; the identity marker is a
phantom index. -/
structure AliasC (T : Type) {Name : Type} (n : Name) where
  base : T
deriving DecidableEq

/-- A runtime operand value together with its compile-time classification:
either a plain (non-alias) value of type `T`, or an alias value of identity
`n` holding an underlying `T`. -/
inductive OperandVal (T : Type) (Name : Type) where
  | plain (v : T)
  | aliased (n : Name) (v : T)
deriving DecidableEq

/-- The compile-time classification of an operand value. -/
def OperandVal.descr : OperandVal T Name → Operand Name
  | .plain _ => .plain
  | .aliased n _ => .aliasOf n

/-- Reading the operand as a `T`: the identity for a plain value, the
implicit `operator T` (strong_alias.h lines 70-72) for an alias value. -/
def OperandVal.read : OperandVal T Name → T
  | .plain v => v
  | .aliased _ v => v

/-- Result of C++ overload resolution at a call site: a usable overload was
selected (`ok`), a deleted overload was selected (hard compile error naming a
deleted function), or no overload is viable (generic compile error). -/
inductive Outcome (α : Type) where
  | ok (a : α)
  | deleted
  | absent
deriving DecidableEq

/-- Whether the call site compiles. -/
def Outcome.compiles : Outcome α → Bool
  | .ok _ => true
  | .deleted => false
  | .absent => false

/-- The eight comparison / logical member operators of the scalar body
(`==, !=, >=, <=, >, <, &&, ||`, strong_alias.h lines 101-118). -/
inductive CmpOp where
  | eq | ne | ge | le | gt | lt | logAnd | logOr
deriving DecidableEq

/-- Whether the scalar body declares a *deleted* member overload of the given
comparison/logical operator for an operand classified as `o`
(strong_alias.h lines 101-118): each of the eight operators carries the same
constraint `requires is_different_alias<Arg, Name>`, and is `= delete`. -/
def cmp_op_deleted (_op : CmpOp) (n : Name) (o : Operand Name) : Bool :=
  is_different_alias o n

/-- Overload resolution for a comparison/logical operator call `l ⊙ r` on
scalar-body aliases, with `p` the builtin meaning of `⊙` on `T`.  If either
operand is an alias whose (possibly reversed) deleted member matches the
other operand — i.e. the other operand is a *different* alias — the deleted
overload is selected, an exact match beating the builtin operator that would
need user-defined conversions: hard compile error.  Otherwise no constrained
member is viable and the call resolves to the builtin operator on `T` after
the implicit conversions `operator T` (strong_alias.h lines 70-72). -/
def cmp_eval (op : CmpOp) (p : T → T → Bool) (l r : OperandVal T Name) :
    Outcome Bool :=
  if (match l.descr with
      | .aliasOf n => cmp_op_deleted op n r.descr
      | .plain => false)
     ||
     (match r.descr with
      | .aliasOf m => cmp_op_deleted op m l.descr
      | .plain => false)
  then .deleted
  else .ok (p l.read r.read)

/-- The eleven assignment / compound-assignment member operators
(`=, +=, -=, *=, /=, %=, &=, |=, ^=, <<=, >>=`). -/
inductive AssignOp where
  | set | add | sub | mul | div | mod | bitAnd | bitOr | bitXor | shl | shr
deriving DecidableEq

/-- The shared constraint of all eleven assignment operators, in both bodies
(strong_alias.h lines 79-100 and 143-164):
`requires (not is_alias<Arg> or is_same_alias<Arg, Name>)`. -/
def assign_op_viable (_op : AssignOp) (n : Name) (o : Operand Name) : Bool :=
  !is_alias o || is_same_alias o n

/-- Overload resolution and semantics of `a ⊙= rhs` on the scalar body, with
`f` the meaning of `T`'s corresponding compound operator.  When the
constraint holds, the body is `value ⊙= arg; return *this`
(strong_alias.h lines 79-100): the owned value is updated by `T`'s operator
applied to the operand read as a `T`, and the result is the left-hand alias
itself (returned by reference in the source).  When the constraint fails —
the operand is a different alias — no overload exists (the implicitly
declared copy assignment is not viable either, since a different alias does
not convert to `Alias T n`). -/
def Alias.assign_eval (op : AssignOp) (f : T → T → T) (a : @Alias T Name n)
    (rhs : OperandVal T Name) : Outcome (@Alias T Name n) :=
  if assign_op_viable op n rhs.descr
  then .ok ⟨f a.value rhs.read⟩
  else .absent

/-- Overload resolution and semantics of `a ⊙= rhs` on the inheritance body,
with `f` the meaning of `T::operator⊙=`.  Same constraint; the body is
`return static_cast<alias&>(T::operator⊙=(arg))`
(strong_alias.h lines 143-164): `T`'s operator updates the inherited
sub-object and the result is re-cast to the alias type. -/
def AliasC.assign_eval (op : AssignOp) (f : T → T → T) (a : @AliasC T Name n)
    (rhs : OperandVal T Name) : Outcome (@AliasC T Name n) :=
  if assign_op_viable op n rhs.descr
  then .ok ⟨f a.base rhs.read⟩
  else .absent

/-- How the constructed object is initialized at the call site:
direct-initialization `A a(x); / A a{x};` (explicit constructors allowed)
or copy-initialization `A a = x;` (implicit conversion: explicit
constructors excluded from the candidate set). -/
inductive InitKind where
  | direct | copy
deriving DecidableEq

/-- Constructing a scalar-body alias of identity `n` from a single argument
(strong_alias.h lines 62-68, plus the implicitly declared copy/move
constructors of the `STRONG_ALIAS`-generated final type):

* the variadic constructor (lines 62-64) is `explicit` and constrained by
  `(is_alias<Args> && ...)`: in direct-initialization it accepts an alias of
  *any* identity, initializing `value` from the argument via its implicit
  conversion to `T`;
* the single-argument constructor (lines 66-68) is **not** explicit and is
  constrained by `!is_alias<Arg>`: it accepts any non-alias value
  convertible to `T`, in both initialization kinds;
* the implicitly declared copy/move constructors accept the *same* alias in
  both initialization kinds.

In copy-initialization from a different alias, every non-explicit candidate
is ruled out, so the construction does not compile. -/
def scalar_construct (n : Name) (k : InitKind) (src : OperandVal T Name) :
    Outcome (@Alias T Name n) :=
  match k with
  | .direct =>
    if is_alias src.descr then .ok ⟨src.read⟩     -- explicit variadic ctor
    else .ok ⟨src.read⟩                           -- non-alias converting ctor
  | .copy =>
    if !is_alias src.descr then .ok ⟨src.read⟩    -- converting ctor (not explicit)
    else if is_same_alias src.descr n then .ok ⟨src.read⟩  -- implicit copy/move ctor
    else .absent

/-- Constructing an inheritance-body alias of identity `n` from a single
argument (strong_alias.h lines 129-135):

* the variadic constructor (lines 129-131) is `explicit` and unconstrained —
  it forwards any argument list to `T`'s constructors, in particular a
  different alias (whose `T` base sub-object initializes the new base);
* the single-argument constructor (lines 133-135) is **not** explicit and is
  constrained by `not is_alias or is_same_alias`. -/
def class_construct (n : Name) (k : InitKind) (src : OperandVal T Name) :
    Outcome (@AliasC T Name n) :=
  match k with
  | .direct => .ok ⟨src.read⟩                     -- explicit variadic ctor, unconstrained
  | .copy =>
    if !is_alias src.descr || is_same_alias src.descr n
    then .ok ⟨src.read⟩                           -- non-explicit single-arg ctor / copy ctor
    else .absent

/-- The builtin binary `+` on two operands at a scalar alias over `T`:
neither header declares any member arithmetic operator (only comparison and
logical operators are deleted, strong_alias.h lines 101-118), so both
operands decay to `T` through the implicit `operator T` (lines 70-72) and
the builtin addition applies: the call always compiles and produces a plain
`T` value. -/
def bin_add_eval [Add T] (l r : OperandVal T Name) : Outcome T :=
  .ok (l.read + r.read)

/-- The static type of a value returned by an alias member operator: either
the alias type of identity `n` (the source signature returns `alias` or
`alias&`), or the raw representation type `T` (the source signature returns
`T` or `T&`). -/
inductive Ret (T : Type) (Name : Type) where
  | wrapped (n : Name) (v : T)
  | raw (v : T)
deriving DecidableEq

/-- The capabilities of `T` for increment and decrement, mirroring the four
requires-clauses `requires requires(T& a) {++a;}` (resp. `--a`, `a++`,
`a--`), strong_alias.h lines 74-77: a field is `some f` when `T` supports
the operator, with `f` the resulting update of the value. -/
structure IncDecOps (T : Type) where
  preInc : Option (T → T)
  preDec : Option (T → T)
  postInc : Option (T → T)
  postDec : Option (T → T)

/-- Prefix `++` of the scalar body in strong_alias.h line 74:
`constexpr alias& operator++() requires requires(T& a) {++a;}
{ ++value; return *this; }` — available iff `T` supports `++`; the result is
the updated alias itself, of type `alias&` (`Ret.wrapped`). -/
def Alias.inc_pre (ops : IncDecOps T) (a : @Alias T Name n) :
    Option (Ret T Name × @Alias T Name n) :=
  ops.preInc.map fun f => (.wrapped n (f a.value), ⟨f a.value⟩)

/-- Prefix `--` of the scalar body in strong_alias.h line 75. -/
def Alias.dec_pre (ops : IncDecOps T) (a : @Alias T Name n) :
    Option (Ret T Name × @Alias T Name n) :=
  ops.preDec.map fun f => (.wrapped n (f a.value), ⟨f a.value⟩)

/-- Postfix `++` of the scalar body in strong_alias.h line 76:
`constexpr alias operator++(int) requires requires(T& a) {a++;}
{ return alias{value++}; }` — returns a new alias holding the
pre-increment value (`Ret.wrapped`), while the owned value is updated. -/
def Alias.inc_post (ops : IncDecOps T) (a : @Alias T Name n) :
    Option (Ret T Name × @Alias T Name n) :=
  ops.postInc.map fun f => (.wrapped n a.value, ⟨f a.value⟩)

/-- Postfix `--` of the scalar body in strong_alias.h line 77. -/
def Alias.dec_post (ops : IncDecOps T) (a : @Alias T Name n) :
    Option (Ret T Name × @Alias T Name n) :=
  ops.postDec.map fun f => (.wrapped n a.value, ⟨f a.value⟩)

/-- Prefix `++` of the scalar body in the older header variant
src/unnamed/part_001 lines 70-71 (identical in part_000):
`constexpr T& operator++() { return ++value; }` — the result is a reference
to the raw owned `T` value (`Ret.raw`), not the alias. -/
def Alias.inc_pre_v1 (ops : IncDecOps T) (a : @Alias T Name n) :
    Option (Ret T Name × @Alias T Name n) :=
  ops.preInc.map fun f => (.raw (f a.value), ⟨f a.value⟩)

/-- Postfix `++` of the older header variant src/unnamed/part_001
lines 74-75: `constexpr T operator++(int) { return value++; }` — the result
is a plain `T` holding the pre-increment value (`Ret.raw`), not an alias. -/
def Alias.inc_post_v1 (ops : IncDecOps T) (a : @Alias T Name n) :
    Option (Ret T Name × @Alias T Name n) :=
  ops.postInc.map fun f => (.raw a.value, ⟨f a.value⟩)

/-- Prefix `--` of src/unnamed/part_001 lines 72-73. -/
def Alias.dec_pre_v1 (ops : IncDecOps T) (a : @Alias T Name n) :
    Option (Ret T Name × @Alias T Name n) :=
  ops.preDec.map fun f => (.raw (f a.value), ⟨f a.value⟩)

/-- Postfix `--` of src/unnamed/part_001 lines 76-77. -/
def Alias.dec_post_v1 (ops : IncDecOps T) (a : @Alias T Name n) :
    Option (Ret T Name × @Alias T Name n) :=
  ops.postDec.map fun f => (.raw a.value, ⟨f a.value⟩)

/-- `int`'s builtin increment/decrement, for concrete instantiations. -/
def intIncDecOps : IncDecOps Int :=
  ⟨some (· + 1), some (· - 1), some (· + 1), some (· - 1)⟩

/-- Value category of the constructor argument at the call site. -/
inductive ArgKind where
  | lvalue | rvalue
deriving DecidableEq

/-- Outcome of template argument deduction for the forwarding-reference
parameter `Arg&& arg` of the alias constructors (strong_alias.h lines 62-68
and 129-135), recording the two traits the noexcept clause queries of the
deduced `Arg`. -/
structure DeducedArg where
  is_lvalue_ref : Bool
  is_rvalue_ref : Bool
deriving DecidableEq

/-- C++ template argument deduction for `template<typename Arg> f(Arg&&)`:
an lvalue argument of type `X` deduces `Arg = X&` (an lvalue reference); an
rvalue argument deduces `Arg = X`, a *non-reference* type — so
`std::is_rvalue_reference_v<Arg>` is false for every deduced `Arg`. -/
def deduceArg : ArgKind → DeducedArg
  | .lvalue => ⟨true, false⟩
  | .rvalue => ⟨false, false⟩

/-- The noexcept clause shared by the alias constructors
(strong_alias.h lines 63, 67, 130, 134):
`noexcept((is_lvalue_reference_v<Arg> && is_nothrow_copy_constructible_v<T>)
or (is_rvalue_reference_v<Arg> && is_nothrow_move_constructible_v<T>))`,
with `copyNT`/`moveNT` the two `T` traits. -/
def ctor_noexcept_clause (d : DeducedArg) (copyNT moveNT : Bool) : Bool :=
  (d.is_lvalue_ref && copyNT) || (d.is_rvalue_ref && moveNT)

/-- A descriptor of C++ representation types, rich enough to evaluate the
standard traits the two partial specializations of `alias` are constrained
by: `std::is_scalar_v`, `std::is_class_v`, `std::is_final_v`. -/
inductive CppTy where
  | arith            -- fundamental arithmetic type (bool, char, int, double, …)
  | enumTy           -- enumeration type
  | nullptrTy        -- std::nullptr_t
  | ptr (pointee : CppTy)  -- raw pointer
  | memPtr           -- pointer to member
  | voidTy
  | funTy            -- function type
  | ref (t : CppTy)  -- reference type
  | arr (t : CppTy)  -- array type
  | unionTy
  | cls (isFinal : Bool)   -- class/struct type, possibly marked final
deriving DecidableEq

/-- `std::is_scalar_v`: arithmetic, enumeration, pointer, pointer-to-member
and `std::nullptr_t` types. -/
def is_scalar_v : CppTy → Bool
  | .arith | .enumTy | .nullptrTy | .ptr _ | .memPtr => true
  | _ => false

/-- `std::is_class_v`. -/
def is_class_v : CppTy → Bool
  | .cls _ => true
  | _ => false

/-- `std::is_final_v`: only class types can be final here. -/
def is_final_v : CppTy → Bool
  | .cls f => f
  | _ => false

/-- The two implementation strategies of the alias. -/
inductive Body where
  | composition | inheritance
deriving DecidableEq

/-- Constraint of the composition specialization
(strong_alias.h line 55): `requires std::is_scalar_v<T>`. -/
def scalar_spec_viable (t : CppTy) : Bool := is_scalar_v t

/-- Constraint of the inheritance specialization (strong_alias.h line 125):
`requires (std::is_class_v<T> and not std::is_final_v<T>)`. -/
def class_spec_viable (t : CppTy) : Bool := is_class_v t && !is_final_v t

/-- The alias body instantiated for a representation type `t`: the partial
specialization whose constraint is satisfied, or none (the primary template
`struct alias;` is only declared, never defined — instantiating it fails to
compile).  The two constraints never hold together (`selection_exclusive`
below), so the ordering of the tests is immaterial. -/
def selected_body (t : CppTy) : Option Body :=
  if scalar_spec_viable t then some .composition
  else if class_spec_viable t then some .inheritance
  else none

/-- `T{ }`: value-initialization of the representation type, producing zero
for arithmetic types and the null pointer for pointer types (pointers are
modelled as `Option`). -/
class ValueInit (T : Type) where
  val : T

instance : ValueInit Int := ⟨0⟩

instance : ValueInit (Option α) := ⟨none⟩

/-- The explicit variadic constructor of the scalar body
(strong_alias.h lines 62-64) with its argument pack (of size at most one,
per the `static_assert`): with an empty pack the member initializer
`value{ }` value-initializes the owned `T`; with one argument the pack must
satisfy `(is_alias<Args> && ...)` and `value` is initialized from the
argument read through its conversion to `T`. -/
def scalar_variadic_ctor [ValueInit T] (n : Name) :
    Option (OperandVal T Name) → Outcome (@Alias T Name n)
  | none => .ok ⟨ValueInit.val⟩
  | some src =>
    if is_alias src.descr then .ok ⟨src.read⟩ else .absent

/-- C1: for two scalar aliases with distinct identity markers over the same
`T`, every comparison and logical operator (`==, !=, >=, <=, >, <, &&, ||`)
between them resolves to an explicitly *deleted* overload — a hard compile
error distinct from a missing overload — while the same operator between two
operands of the same alias compiles through the builtin operator on `T`, and
`a == a` in particular yields `static_cast<T>(a) == static_cast<T>(a)`. -/
theorem C1_cmp_gating {Name : Type} [DecidableEq Name] {T : Type} [BEq T]
    (n₁ n₂ : Name) (h : n₁ ≠ n₂) :
    (∀ op : CmpOp, cmp_op_deleted op n₁ (Operand.aliasOf n₂) = true)
    ∧ (∀ (op : CmpOp) (p : T → T → Bool) (x y : T),
        cmp_eval op p (OperandVal.aliased n₁ x) (OperandVal.aliased n₂ y) =
          Outcome.deleted)
    ∧ (∀ op : CmpOp, cmp_op_deleted op n₁ (Operand.aliasOf n₁) = false)
    ∧ (∀ (p : T → T → Bool) (x y : T),
        cmp_eval CmpOp.eq p (OperandVal.aliased n₁ x) (OperandVal.aliased n₁ y) =
          Outcome.ok (p x y))
    ∧ (∀ (a : @Alias T Name n₁),
        cmp_eval CmpOp.eq (fun x y => x == y)
          (OperandVal.aliased n₁ a.value) (OperandVal.aliased n₁ a.value) =
          Outcome.ok (a.toT == a.toT)) := by
  have hd : decide (n₂ = n₁) = false := decide_eq_false fun hc => h hc.symm
  refine ⟨?_, ?_, ?_, ?_, ?_⟩ <;>
    simp [cmp_op_deleted, cmp_eval, is_different_alias, is_alias,
      derives_alias_name, OperandVal.descr, OperandVal.read, hd, Alias.toT]

/-- Witness for C1 at `Name = Nat`, identities `0 ≠ 1`, `T = Int`. -/
theorem C1_cmp_gating_witness :
    (0 : Nat) ≠ 1
    ∧ cmp_eval CmpOp.eq (fun x y : Int => x == y)
        (OperandVal.aliased (0 : Nat) (3 : Int)) (OperandVal.aliased 1 4) =
        Outcome.deleted
    ∧ cmp_eval CmpOp.eq (fun x y : Int => x == y)
        (OperandVal.aliased (0 : Nat) (3 : Int)) (OperandVal.aliased 0 3) =
        Outcome.ok ((3 : Int) == 3) :=
  ⟨by decide,
   (C1_cmp_gating 0 1 (by decide)).2.1 CmpOp.eq _ 3 4,
   (C1_cmp_gating 0 1 (by decide)).2.2.2.1 _ 3 3⟩

/-- C2: each of the eleven assignment/compound-assignment operators of both
alias bodies accepts a right-hand operand exactly when it is not an alias or
is the same alias: for a plain value or a same-alias operand the call
compiles, delegates to `T`'s corresponding operator on the owned (resp.
inherited) value — the same-alias operand being read through its conversion
to `T` — and returns the updated left-hand alias; for a different alias no
overload exists. -/
theorem C2_assign_gating {Name : Type} [DecidableEq Name] {T : Type}
    (n₁ n₂ : Name) (h : n₁ ≠ n₂) :
    (∀ (op : AssignOp) (f : T → T → T) (a : @Alias T Name n₁) (v : T),
        a.assign_eval op f (OperandVal.plain v) = Outcome.ok ⟨f a.value v⟩)
    ∧ (∀ (op : AssignOp) (f : T → T → T) (a b : @Alias T Name n₁),
        a.assign_eval op f (OperandVal.aliased n₁ b.value) =
          Outcome.ok ⟨f a.value b.toT⟩)
    ∧ (∀ (op : AssignOp) (f : T → T → T) (a : @Alias T Name n₁) (w : T),
        a.assign_eval op f (OperandVal.aliased n₂ w) = Outcome.absent)
    ∧ (∀ (op : AssignOp) (f : T → T → T) (a : @AliasC T Name n₁) (v : T),
        a.assign_eval op f (OperandVal.plain v) = Outcome.ok ⟨f a.base v⟩)
    ∧ (∀ (op : AssignOp) (f : T → T → T) (a b : @AliasC T Name n₁),
        a.assign_eval op f (OperandVal.aliased n₁ b.base) =
          Outcome.ok ⟨f a.base b.base⟩)
    ∧ (∀ (op : AssignOp) (f : T → T → T) (a : @AliasC T Name n₁) (w : T),
        a.assign_eval op f (OperandVal.aliased n₂ w) = Outcome.absent) := by
  have hd : decide (n₂ = n₁) = false := decide_eq_false fun hc => h hc.symm
  refine ⟨?_, ?_, ?_, ?_, ?_, ?_⟩ <;>
    simp [Alias.assign_eval, AliasC.assign_eval, assign_op_viable, is_alias,
      is_same_alias, derives_alias_name, OperandVal.descr, OperandVal.read,
      hd, Alias.toT]

/-- Witness for C2 at `Name = Nat`, identities `0 ≠ 1`, `T = Int`,
op `+=` delegating to `Int` addition. -/
theorem C2_assign_gating_witness :
    (0 : Nat) ≠ 1
    ∧ Alias.assign_eval AssignOp.add (· + ·) (⟨5⟩ : @Alias Int Nat 0)
        (OperandVal.plain 2) = Outcome.ok ⟨5 + 2⟩
    ∧ Alias.assign_eval AssignOp.add (· + ·) (⟨5⟩ : @Alias Int Nat 0)
        (OperandVal.aliased 1 2) = Outcome.absent :=
  ⟨by decide,
   (C2_assign_gating 0 1 (by decide)).1 AssignOp.add _ ⟨5⟩ 2,
   (C2_assign_gating 0 1 (by decide)).2.2.1 AssignOp.add _ ⟨5⟩ 2⟩

/-- C3 counterexample: the claim says constructing an alias from a value of
a *different* alias fails to compile and that direct-initialization
`A a; B b(a);` is rejected by every constructor of `B`.  On the code it is
accepted: with identities `0 ≠ 1` over `T = Int`, direct-initialization of
the alias of identity `1` from an alias of identity `0` holding `42`
resolves to the explicit variadic constructor (scalar body) resp. the
unconstrained explicit variadic constructor (class body) and compiles —
matching the repository's own test `{ A a; B b(a); } // OK`. -/
theorem C3_construct_counterexample :
    scalar_construct (T := Int) (1 : Nat) InitKind.direct
      (OperandVal.aliased 0 42) = Outcome.ok ⟨42⟩
    ∧ (scalar_construct (T := Int) (1 : Nat) InitKind.direct
        (OperandVal.aliased 0 42)).compiles = true
    ∧ class_construct (T := Int) (1 : Nat) InitKind.direct
        (OperandVal.aliased 0 42) = Outcome.ok ⟨42⟩ := by
  refine ⟨rfl, rfl, rfl⟩

/-- C3 (amended): direct-initialization of an alias from a *different* alias
compiles, through the explicit variadic constructor, and reads the source
value through its conversion to `T` (scalar body) resp. forwards it to `T`'s
constructor (class body); what is rejected is *implicit* conversion between
different aliases — copy-initialization `B b = a;` does not compile, because
the only constructors accepting a different alias are explicit. -/
theorem C3_construct_amended {Name : Type} [DecidableEq Name] {T : Type}
    (n₁ n₂ : Name) (h : n₁ ≠ n₂) (v : T) :
    scalar_construct n₂ InitKind.direct (OperandVal.aliased n₁ v) =
      Outcome.ok ⟨v⟩
    ∧ scalar_construct n₂ InitKind.copy (OperandVal.aliased n₁ v) =
      Outcome.absent
    ∧ class_construct n₂ InitKind.direct (OperandVal.aliased n₁ v) =
      Outcome.ok ⟨v⟩
    ∧ class_construct n₂ InitKind.copy (OperandVal.aliased n₁ v) =
      Outcome.absent := by
  have hd : decide (n₁ = n₂) = false := decide_eq_false h
  refine ⟨rfl, ?_, rfl, ?_⟩ <;>
    simp [scalar_construct, class_construct, is_alias, is_same_alias,
      derives_alias_name, OperandVal.descr, OperandVal.read, hd]

/-- Witness for the amended C3 at `Name = Nat`, identities `0 ≠ 1`,
`T = Int`, `v = 7`. -/
theorem C3_construct_amended_witness :
    (0 : Nat) ≠ 1
    ∧ scalar_construct (T := Int) (1 : Nat) InitKind.copy
        (OperandVal.aliased 0 7) = Outcome.absent :=
  ⟨by decide, (C3_construct_amended 0 1 (by decide) 7).2.1⟩

/-- C4 counterexample: the claim says construction of a scalar alias is
always explicit, so `A a = 5;` by implicit conversion does not occur.  On
the code the single-argument non-alias constructor (strong_alias.h lines
66-68) is *not* declared `explicit`, so copy-initialization of an alias over
`Int` from the plain value `5` compiles — the plain value is implicitly
converted into the alias. -/
theorem C4_explicit_counterexample :
    scalar_construct (T := Int) (0 : Nat) InitKind.copy (OperandVal.plain 5) =
      Outcome.ok ⟨5⟩
    ∧ (scalar_construct (T := Int) (0 : Nat) InitKind.copy
        (OperandVal.plain 5)).compiles = true := ⟨rfl, rfl⟩

/-- C4 (amended): only the alias-accepting variadic constructor of the
scalar body is explicit — no alias value is ever implicitly converted into a
*different* alias type — but a non-alias value convertible to `T` is
implicitly converted into the alias through the non-explicit
single-argument constructor, so `A a = 5;` compiles. -/
theorem C4_explicit_amended {Name : Type} [DecidableEq Name] {T : Type}
    (n₁ n₂ : Name) (h : n₁ ≠ n₂) (v : T) :
    scalar_construct n₁ InitKind.copy (OperandVal.plain v) = Outcome.ok ⟨v⟩
    ∧ scalar_construct n₁ InitKind.copy (OperandVal.aliased n₂ v) =
      Outcome.absent := by
  have hd : decide (n₂ = n₁) = false := decide_eq_false fun hc => h hc.symm
  refine ⟨rfl, ?_⟩
  simp [scalar_construct, is_alias, is_same_alias, derives_alias_name,
    OperandVal.descr, OperandVal.read, hd]

/-- Witness for the amended C4 at `Name = Nat`, identities `0 ≠ 1`,
`T = Int`, `v = 5`. -/
theorem C4_explicit_amended_witness :
    (0 : Nat) ≠ 1
    ∧ scalar_construct (T := Int) (0 : Nat) InitKind.copy
        (OperandVal.aliased 1 5) = Outcome.absent :=
  ⟨by decide, (C4_explicit_amended 0 1 (by decide) 5).2⟩

/-- C5: round-trip — constructing an alias from a plain value `v`
convertible to `T` (direct-initialization resolving to the converting
constructor) and reading it back through the implicit conversion to `T`
(scalar body) resp. through the inherited `T` sub-object (class body)
yields `v` again. -/
theorem C5_roundtrip {Name : Type} [DecidableEq Name] {T : Type}
    (n : Name) (v : T) :
    scalar_construct n InitKind.direct (OperandVal.plain v) = Outcome.ok ⟨v⟩
    ∧ (Alias.mk v : @Alias T Name n).toT = v
    ∧ class_construct n InitKind.direct (OperandVal.plain v) = Outcome.ok ⟨v⟩
    ∧ (AliasC.mk v : @AliasC T Name n).base = v :=
  ⟨rfl, rfl, rfl, rfl⟩

/-- C6 counterexample: with `Meters` (identity `0`) and `Seconds`
(identity `1`) both over `double` — modelled by `ℚ`, on which the values
`5.0, 2.0, 3.0, 8.0` and their sums are exactly representable, so binary64
arithmetic agrees with ℚ arithmetic — the claim says `m + s` must fail to
compile.  On the code it compiles: no arithmetic operator is declared (or
deleted) by the alias, both operands decay to `double` through the implicit
`operator T`, and the builtin addition yields the plain value `7.0`. -/
theorem C6_mixed_add_counterexample :
    bin_add_eval (OperandVal.aliased (0 : Nat) (5 : ℚ))
      (OperandVal.aliased 1 2) = Outcome.ok 7
    ∧ (bin_add_eval (OperandVal.aliased (0 : Nat) (5 : ℚ))
        (OperandVal.aliased 1 2)).compiles = true := by
  refine ⟨?_, rfl⟩
  show Outcome.ok (5 + 2 : ℚ) = Outcome.ok 7
  norm_num

/-- C6 (amended): `Meters m{5.0}; Seconds s{2.0}; m + s;` *compiles* — only
comparison and logical operators are deleted for different aliases, so the
addition goes through the implicit conversions to `double` and yields the
plain `double` `7.0` — while `(m + n) == Meters{8.0}` with `n = Meters{3.0}`
also compiles (the left operand is a plain `double`, for which the deleted
member does not apply) and evaluates to `true`. -/
theorem C6_mixed_add_amended :
    bin_add_eval (OperandVal.aliased (0 : Nat) (5 : ℚ))
      (OperandVal.aliased 1 2) = Outcome.ok 7
    ∧ bin_add_eval (OperandVal.aliased (0 : Nat) (5 : ℚ))
        (OperandVal.aliased 0 3) = Outcome.ok 8
    ∧ cmp_eval CmpOp.eq (fun x y : ℚ => x == y)
        (OperandVal.plain 8) (OperandVal.aliased (0 : Nat) 8) =
        Outcome.ok true := by
  refine ⟨?_, ?_, ?_⟩
  · show Outcome.ok (5 + 2 : ℚ) = Outcome.ok 7
    norm_num
  · show Outcome.ok (5 + 3 : ℚ) = Outcome.ok 8
    norm_num
  · simp [cmp_eval, cmp_op_deleted, is_different_alias, is_alias,
      derives_alias_name, OperandVal.descr, OperandVal.read]

/-- C7 counterexample: the claim says that across the header variants
postfix `++` returns a new wrapped alias value holding the pre-increment
value.  In the older variant src/unnamed/part_001 (lines 74-75) postfix
`++` is declared `constexpr T operator++(int) { return value++; }`: on an
alias over `Int` with identity `0` and value `5`, it returns the *raw*
value `5` of type `T`, which is not the wrapped alias value the claim
requires. -/
theorem C7_incdec_counterexample :
    Alias.inc_post_v1 intIncDecOps (⟨5⟩ : @Alias Int Nat 0) =
      some (Ret.raw 5, ⟨6⟩)
    ∧ (Ret.raw (5 : Int) : Ret Int Nat) ≠ Ret.wrapped 0 5 := by
  refine ⟨rfl, by decide⟩

/-- C7 (amended): increment/decrement of the scalar body is available
exactly when `T` supports the corresponding operator (the four
requires-clauses).  In the current header strong_alias.h, prefix `++`/`--`
return the updated alias itself (type `alias&`) and postfix `++`/`--`
return a new alias holding the pre-increment value; in the older variants
(src/unnamed/part_000, part_001) the results are instead the raw `T`:
prefix returns `T&` (the updated owned value) and postfix a plain `T`
holding the pre-increment value. -/
theorem C7_incdec_amended {Name : Type} {T : Type} (n : Name)
    (ops : IncDecOps T) (a : @Alias T Name n) :
    ((a.inc_pre ops).isSome = ops.preInc.isSome)
    ∧ ((a.dec_pre ops).isSome = ops.preDec.isSome)
    ∧ ((a.inc_post ops).isSome = ops.postInc.isSome)
    ∧ ((a.dec_post ops).isSome = ops.postDec.isSome)
    ∧ (∀ f, ops.preInc = some f →
        a.inc_pre ops = some (Ret.wrapped n (f a.value), ⟨f a.value⟩))
    ∧ (∀ f, ops.postInc = some f →
        a.inc_post ops = some (Ret.wrapped n a.value, ⟨f a.value⟩))
    ∧ (∀ f, ops.preDec = some f →
        a.dec_pre ops = some (Ret.wrapped n (f a.value), ⟨f a.value⟩))
    ∧ (∀ f, ops.postDec = some f →
        a.dec_post ops = some (Ret.wrapped n a.value, ⟨f a.value⟩))
    ∧ (∀ f, ops.preInc = some f →
        a.inc_pre_v1 ops = some (Ret.raw (f a.value), ⟨f a.value⟩))
    ∧ (∀ f, ops.postInc = some f →
        a.inc_post_v1 ops = some (Ret.raw a.value, ⟨f a.value⟩))
    ∧ (∀ f, ops.preDec = some f →
        a.dec_pre_v1 ops = some (Ret.raw (f a.value), ⟨f a.value⟩))
    ∧ (∀ f, ops.postDec = some f →
        a.dec_post_v1 ops = some (Ret.raw a.value, ⟨f a.value⟩)) := by
  refine ⟨?_, ?_, ?_, ?_, ?_, ?_, ?_, ?_, ?_, ?_, ?_, ?_⟩ <;>
    first
    | (intro f hf
       simp [Alias.inc_pre, Alias.dec_pre, Alias.inc_post, Alias.dec_post,
         Alias.inc_pre_v1, Alias.dec_pre_v1, Alias.inc_post_v1,
         Alias.dec_post_v1, hf])
    | simp [Alias.inc_pre, Alias.dec_pre, Alias.inc_post, Alias.dec_post]

/-- Witness for the amended C7 at `T = Int`, identity `0`, value `5`:
the current header postfix `++` returns the wrapped pre-increment value. -/
theorem C7_incdec_amended_witness :
    Alias.inc_post intIncDecOps (⟨5⟩ : @Alias Int Nat 0) =
      some (Ret.wrapped 0 5, ⟨5 + 1⟩) :=
  (C7_incdec_amended 0 intIncDecOps ⟨5⟩).2.2.2.2.2.1 (· + 1) rfl

/-- C8: the claim says construction of an alias from an rvalue is declared
noexcept exactly when `T` is nothrow-move-constructible.  The noexcept
clause of the templated constructors tests `std::is_rvalue_reference_v<Arg>`
on the *deduced* `Arg`, which for an rvalue argument is deduced as a
non-reference type — the test is always false and the whole clause evaluates
to `false` for every rvalue argument, whatever the traits of `T`; only the
lvalue half behaves as the claim (and the surrounding spec) state.  This
theorem evaluates the embedded clause on both argument kinds, exhibiting the
divergence at `moveNT = true`. -/
theorem C8_noexcept_rvalue_dead :
    ∀ copyNT moveNT : Bool,
      ctor_noexcept_clause (deduceArg ArgKind.lvalue) copyNT moveNT = copyNT
      ∧ ctor_noexcept_clause (deduceArg ArgKind.rvalue) copyNT moveNT =
        false := by decide

/-- C9: category selection is total and exclusive — the two partial
specializations of `alias` never both apply to one `T`; every scalar `T`
(in particular every fundamental arithmetic or raw pointer type) gets the
composition body; every non-final class type gets the inheritance body; any
other `T` — in particular a final class type — gets no body at all, so the
alias definition fails to compile with no composition fallback. -/
theorem C9_category_selection :
    (∀ t : CppTy, (scalar_spec_viable t && class_spec_viable t) = false)
    ∧ (∀ t : CppTy, scalar_spec_viable t = true →
        selected_body t = some Body.composition)
    ∧ (∀ t : CppTy, class_spec_viable t = true →
        selected_body t = some Body.inheritance)
    ∧ (∀ t : CppTy, scalar_spec_viable t = false →
        class_spec_viable t = false → selected_body t = none)
    ∧ selected_body (CppTy.cls true) = none := by
  refine ⟨?_, ?_, ?_, ?_, rfl⟩ <;> intro t <;> cases t <;>
    simp_all [selected_body, scalar_spec_viable, class_spec_viable,
      is_scalar_v, is_class_v, is_final_v]

/-- Witness for C9: an arithmetic type selects composition, a non-final
class selects inheritance. -/
theorem C9_category_selection_witness :
    selected_body CppTy.arith = some Body.composition
    ∧ selected_body (CppTy.cls false) = some Body.inheritance :=
  ⟨C9_category_selection.2.1 CppTy.arith rfl,
   C9_category_selection.2.2.1 (CppTy.cls false) rfl⟩

/-- C10: default construction of a scalar alias goes through the
zero-argument path of the explicit variadic constructor, whose member
initializer `value{ }` value-initializes the owned `T`: the underlying
value of a default-constructed alias over `int` is `0`, and over a pointer
type (modelled as `Option`) is the null pointer — not indeterminate. -/
theorem C10_default_value_init {Name : Type} (n : Name) :
    scalar_variadic_ctor (T := Int) n none = Outcome.ok ⟨0⟩
    ∧ scalar_variadic_ctor (T := Option Int) n none = Outcome.ok ⟨none⟩ :=
  ⟨rfl, rfl⟩

end strong
